import Mathlib

/-!
Shallow embedding of the XDL Python bindings
(src/examples/embedding/python/xdl_wrapper.py).

The wrapper drives an opaque native engine through three entry points
(xdl_init, xdl_cleanup, xdl_call_function).  The native engine is opaque,
so it is modelled as oracle inputs (the init result and the call result),
and every native invocation the wrapper performs is recorded as an event
in an explicit trace.  Python floats are modelled by an arbitrary type
alpha, since the wrapper never inspects the numeric values it moves.
-/

namespace Xdl

/-- The typed failures the wrapper raises, named after the error taxonomy.
In the Python source these are:
  unsupportedPlatformError s : RuntimeError("Unsupported platform: " + s)
  libraryNotFoundError paths : RuntimeError("Could not find XDL library. Tried: " + repr of paths)
  contextInitError           : XdlError("Failed to initialize XDL context")
The payloads are exactly the values interpolated into the messages. -/
inductive PyError where
  | unsupportedPlatformError (system : String)
  | libraryNotFoundError (tried : List String)
  | contextInitError
deriving DecidableEq, Repr

/-- One native-boundary invocation performed by the wrapper.  A handle is a
c_void_p value: some h for a non-null pointer, none for NULL/None.
For a call event, name_bytes is the byte string the native side receives
(ctypes c_char_p marshals Python bytes with a terminating NUL), c_args is
the marshaled argument buffer (none = null pointer, some l = a contiguous
array holding l in order) and nargs is the count passed. -/
inductive NEvent (α : Type) where
  | init (res : Option Nat)
  | cleanup (handle : Nat)
  | call (handle : Option Nat) (name_bytes : List Nat) (c_args : Option (List α))
      (nargs : Nat) (res : α)
deriving DecidableEq, Repr

/-- Whether an event is an invocation of the native call entry. -/
def NEvent.isCall {α : Type} : NEvent α → Bool
  | NEvent.call _ _ _ _ _ => true
  | _ => false

/-- name.encode of utf-8 in Python: the UTF-8 bytes of the string. -/
def encodeUtf8 (s : String) : List Nat :=
  s.toUTF8.data.toList.map (fun b => b.toNat)

/-- Python str.lower, as used on the result of platform.system(): a
per-character lowercase map (the platform names involved are ASCII). -/
def pyLower (s : String) : String :=
  String.mk (s.data.map Char.toLower)

/-- The platform-specific library file name chosen by _load_library:
darwin gets libxdl_ffi.dylib, linux gets libxdl_ffi.so, windows gets
xdl_ffi.dll, anything else is unsupported (none). -/
def lib_name? (system : String) : Option String :=
  if system = "darwin" then some "libxdl_ffi.dylib"
  else if system = "linux" then some "libxdl_ffi.so"
  else if system = "windows" then some "xdl_ffi.dll"
  else none

/-- The candidate paths _load_library tries, in source order: the debug
build output, the release build output, the current working directory,
then the bare name.  dir stands for os.path.dirname of the module file;
os.path.join is rendered as slash-separated concatenation. -/
def possible_paths (dir : String) (lib_name : String) : List String :=
  [dir ++ "/../../../target/debug/" ++ lib_name,
   dir ++ "/../../../target/release/" ++ lib_name,
   "./" ++ lib_name,
   lib_name]

/-- XdlContext._load_library.  lib_path is the optional explicit path,
system stands for platform.system() (the code lowercases it), dir for
os.path.dirname of the module file, and exists_ for os.path.exists.
Returns the path at which ctypes.CDLL loads the artifact; loading and
symbol binding themselves are native and not further modelled.  The
for/else loop over the candidates is List.find?, which returns the first
candidate that exists. -/
def _load_library (lib_path : Option String) (system : String) (dir : String)
    (exists_ : String → Bool) : Except PyError String :=
  match lib_path with
  | some p => Except.ok p
  | none =>
    let sys := pyLower system
    match lib_name? sys with
    | none => Except.error (PyError.unsupportedPlatformError sys)
    | some lib_name =>
      match (possible_paths dir lib_name).find? (fun path => exists_ path) with
      | some path => Except.ok path
      | none => Except.error (PyError.libraryNotFoundError (possible_paths dir lib_name))

/-- The state of an XdlContext object: the loaded library (identified by
the path it was loaded from) and the _context attribute, a c_void_p
handle (none both for the Python value None and for the attribute not
having been assigned yet, in which case __del__ is equally a no-op). -/
structure XdlContext where
  lib : String
  _context : Option Nat
deriving DecidableEq, Repr

/-- XdlContext._initialize: assigns self._context = self.lib.xdl_init()
and raises XdlError when the result is None.  initRes is the oracle value
xdl_init returns.  Produces the updated object, the raised error if any,
and the native trace. -/
def XdlContext._initialize (α : Type) (ctx : XdlContext) (initRes : Option Nat) :
    (XdlContext × Option PyError) × List (NEvent α) :=
  (({ ctx with _context := initRes },
    match initRes with
    | none => some PyError.contextInitError
    | some _ => none),
   [NEvent.init initRes])

/-- XdlContext.__del__: if the _context attribute is present and not None,
invoke self.lib.xdl_cleanup(self._context).  The source does not assign
self._context afterwards, so the state is returned unchanged. -/
def XdlContext.del (α : Type) (ctx : XdlContext) : XdlContext × List (NEvent α) :=
  match ctx._context with
  | some h => (ctx, [NEvent.cleanup h])
  | none => (ctx, [])

/-- XdlContext.call_function: marshal the arguments (None and 0 when args
is empty, otherwise a contiguous c_double array in the given order and
its length), encode the name as UTF-8 (NUL-terminated by c_char_p), make
the single native call and return float(result), which on a float is the
value unchanged.  nativeResult is the oracle double the native call
returns.  The method reads self._context and self.lib but assigns
neither, so the object state is returned as is. -/
def XdlContext.call_function (α : Type) (ctx : XdlContext) (name : String)
    (args : List α) (nativeResult : α) : (XdlContext × α) × List (NEvent α) :=
  let c_args : Option (List α) := if args.isEmpty then none else some args
  let nargs : Nat := if args.isEmpty then 0 else args.length
  let name_bytes : List Nat := encodeUtf8 name
  ((ctx, nativeResult),
   [NEvent.call ctx._context (name_bytes ++ [0]) c_args nargs nativeResult])

/-- XdlContext.__init__: self.lib = self._load_library(lib_path);
self._context = None; self._initialize().  On a load failure the error
propagates before any native call; on an init failure the XdlError
propagates after the init event. -/
def XdlContext.new (α : Type) (lib_path : Option String) (system : String)
    (dir : String) (exists_ : String → Bool) (initRes : Option Nat) :
    Except PyError XdlContext × List (NEvent α) :=
  match _load_library lib_path system dir exists_ with
  | Except.error e => (Except.error e, [])
  | Except.ok lib =>
    let ctx0 : XdlContext := { lib := lib, _context := none }
    match XdlContext._initialize α ctx0 initRes with
    | ((_, some e), evs) => (Except.error e, evs)
    | ((ctx1, none), evs) => (Except.ok ctx1, evs)

/-- The convenience function sin: ctx = XdlContext();
return ctx.call_function("sin", x). -/
def sin (α : Type) (x : α) (system : String) (dir : String)
    (exists_ : String → Bool) (initRes : Option Nat) (nativeResult : α) :
    Except PyError α × List (NEvent α) :=
  match XdlContext.new α none system dir exists_ initRes with
  | (Except.error e, evs) => (Except.error e, evs)
  | (Except.ok ctx, evs) =>
    let r := XdlContext.call_function α ctx "sin" [x] nativeResult
    (Except.ok r.1.2, evs ++ r.2)

/-- The convenience function cos: ctx = XdlContext();
return ctx.call_function("cos", x). -/
def cos (α : Type) (x : α) (system : String) (dir : String)
    (exists_ : String → Bool) (initRes : Option Nat) (nativeResult : α) :
    Except PyError α × List (NEvent α) :=
  match XdlContext.new α none system dir exists_ initRes with
  | (Except.error e, evs) => (Except.error e, evs)
  | (Except.ok ctx, evs) =>
    let r := XdlContext.call_function α ctx "cos" [x] nativeResult
    (Except.ok r.1.2, evs ++ r.2)

/-- The convenience function sqrt: ctx = XdlContext();
return ctx.call_function("sqrt", x). -/
def sqrt (α : Type) (x : α) (system : String) (dir : String)
    (exists_ : String → Bool) (initRes : Option Nat) (nativeResult : α) :
    Except PyError α × List (NEvent α) :=
  match XdlContext.new α none system dir exists_ initRes with
  | (Except.error e, evs) => (Except.error e, evs)
  | (Except.ok ctx, evs) =>
    let r := XdlContext.call_function α ctx "sqrt" [x] nativeResult
    (Except.ok r.1.2, evs ++ r.2)

end Xdl

deriving instance DecidableEq for Except

namespace Xdl

/-- C1 counterexample: calling through a destroyed context does NOT fail
and the native call entry IS invoked.  Concretely: destroy an active
context holding handle 1, then call "sin" with one argument; the wrapper
invokes the native call entry with the stale handle 1 and returns the
native result 3.  call_function performs no state check at all, and the
source defines no InvalidContextUseError. -/
theorem call_after_del_invokes_native_counterexample :
    (XdlContext.call_function Int (XdlContext.del Int ⟨"libxdl_ffi.so", some 1⟩).1
        "sin" [2] 3).2.countP (fun ev => ev.isCall) = 1 ∧
    (XdlContext.call_function Int (XdlContext.del Int ⟨"libxdl_ffi.so", some 1⟩).1
        "sin" [2] 3).2 =
      [NEvent.call (some 1) [115, 105, 110, 0] (some [2]) 1 3] := by
  exact ⟨rfl, rfl⟩

/-- C1 amended: call_function performs no context-state check.  After
__del__ the stored handle is unchanged, and a subsequent call_function
invokes the native call entry exactly once, with the stale handle, and
returns the native result; no error is raised. -/
theorem call_function_after_destroy_invokes_native (α : Type) (lib : String)
    (h : Nat) (name : String) (args : List α) (res : α) :
    (XdlContext.del α ⟨lib, some h⟩).1._context = some h ∧
    (XdlContext.call_function α (XdlContext.del α ⟨lib, some h⟩).1
        name args res).2.countP (fun ev => ev.isCall) = 1 ∧
    (XdlContext.call_function α (XdlContext.del α ⟨lib, some h⟩).1
        name args res).1.2 = res := by
  exact ⟨rfl, rfl, rfl⟩

/-- C2 counterexample: invoking __del__ twice on an active context with
handle 5 invokes the native cleanup entry twice, not once, and the stored
handle is still not cleared afterwards. -/
theorem double_del_invokes_cleanup_twice_counterexample :
    (XdlContext.del Int ⟨"libxdl_ffi.so", some 5⟩).2 ++
      (XdlContext.del Int (XdlContext.del Int ⟨"libxdl_ffi.so", some 5⟩).1).2 =
        [NEvent.cleanup 5, NEvent.cleanup 5] ∧
    (XdlContext.del Int (XdlContext.del Int ⟨"libxdl_ffi.so", some 5⟩).1).1._context =
      some 5 := by
  exact ⟨rfl, rfl⟩

/-- C2 amended: destroying a context whose handle is non-null invokes the
native cleanup entry once with the held handle, but does not transition
the context or clear the stored handle; hence every further __del__
performs one more cleanup invocation (two destructions yield two). -/
theorem del_invokes_cleanup_and_keeps_handle (α : Type) (lib : String) (h : Nat) :
    XdlContext.del α ⟨lib, some h⟩ = (⟨lib, some h⟩, [NEvent.cleanup h]) := rfl

/-- C3: marshaling in call_function.  An empty argument sequence is passed
as a null pointer (none) with count 0, never as an allocated zero-length
buffer; a non-empty sequence is passed as one contiguous array holding the
arguments in order with count equal to their number; the name crosses the
boundary as its UTF-8 bytes followed by the terminating NUL. -/
theorem call_function_marshaling (α : Type) (ctx : XdlContext) (name : String)
    (args : List α) (res : α) :
    (args = [] →
      (XdlContext.call_function α ctx name args res).2 =
        [NEvent.call ctx._context (encodeUtf8 name ++ [0]) none 0 res]) ∧
    (args ≠ [] →
      (XdlContext.call_function α ctx name args res).2 =
        [NEvent.call ctx._context (encodeUtf8 name ++ [0]) (some args)
          args.length res]) := by
  constructor
  · intro hargs
    subst hargs
    rfl
  · intro hargs
    cases args with
    | nil => exact absurd rfl hargs
    | cons a l => rfl

/-- Witness for C3 at concrete inputs: the empty case and a two-argument
case. -/
theorem call_function_marshaling_witness :
    (XdlContext.call_function Int ⟨"L", some 2⟩ "f" [] 9).2 =
      [NEvent.call (some 2) (encodeUtf8 "f" ++ [0]) none 0 9] ∧
    (XdlContext.call_function Int ⟨"L", some 2⟩ "f" [4, 5] 9).2 =
      [NEvent.call (some 2) (encodeUtf8 "f" ++ [0]) (some [4, 5]) 2 9] :=
  ⟨(call_function_marshaling Int ⟨"L", some 2⟩ "f" [] 9).1 rfl,
   (call_function_marshaling Int ⟨"L", some 2⟩ "f" [4, 5] 9).2 (by decide)⟩

/-- C4: an operating-system identifier outside the recognized set (darwin,
linux, windows after lowercasing) makes path-free resolution fail with
unsupportedPlatformError, and the outcome is independent of the
filesystem (the same for every exists_ predicate): no candidate path is
built or attempted. -/
theorem load_library_unsupported_platform (system : String) (dir : String)
    (e₁ e₂ : String → Bool)
    (h₁ : pyLower system ≠ "darwin") (h₂ : pyLower system ≠ "linux")
    (h₃ : pyLower system ≠ "windows") :
    _load_library none system dir e₁ =
      Except.error (PyError.unsupportedPlatformError (pyLower system)) ∧
    _load_library none system dir e₁ = _load_library none system dir e₂ := by
  have hname : lib_name? (pyLower system) = none := by
    simp [lib_name?, h₁, h₂, h₃]
  constructor
  · simp [_load_library, hname]
  · simp [_load_library, hname]

/-- Witness for C4: plan9 is unrecognized; resolution fails identically
under two opposite filesystems. -/
theorem load_library_unsupported_platform_witness :
    _load_library none "plan9" "d" (fun _ => true) =
      Except.error (PyError.unsupportedPlatformError (pyLower "plan9")) ∧
    _load_library none "plan9" "d" (fun _ => true) =
      _load_library none "plan9" "d" (fun _ => false) :=
  load_library_unsupported_platform "plan9" "d" (fun _ => true) (fun _ => false)
    (by decide) (by decide) (by decide)

/-- C5: with a recognized platform and no explicit path, resolution tries
debug, release, current directory, then bare name, in that fixed order:
the first existing candidate wins, and if none exists it fails with
libraryNotFoundError carrying the full ordered candidate list. -/
theorem load_library_search_order (system : String) (dir : String)
    (lib_name : String) (e : String → Bool)
    (hname : lib_name? (pyLower system) = some lib_name) :
    ((∀ p ∈ possible_paths dir lib_name, e p = false) →
      _load_library none system dir e =
        Except.error (PyError.libraryNotFoundError
          [dir ++ "/../../../target/debug/" ++ lib_name,
           dir ++ "/../../../target/release/" ++ lib_name,
           "./" ++ lib_name,
           lib_name])) ∧
    (e (dir ++ "/../../../target/debug/" ++ lib_name) = true →
      _load_library none system dir e =
        Except.ok (dir ++ "/../../../target/debug/" ++ lib_name)) ∧
    (e (dir ++ "/../../../target/debug/" ++ lib_name) = false →
      e (dir ++ "/../../../target/release/" ++ lib_name) = true →
      _load_library none system dir e =
        Except.ok (dir ++ "/../../../target/release/" ++ lib_name)) ∧
    (e (dir ++ "/../../../target/debug/" ++ lib_name) = false →
      e (dir ++ "/../../../target/release/" ++ lib_name) = false →
      e ("./" ++ lib_name) = true →
      _load_library none system dir e = Except.ok ("./" ++ lib_name)) ∧
    (e (dir ++ "/../../../target/debug/" ++ lib_name) = false →
      e (dir ++ "/../../../target/release/" ++ lib_name) = false →
      e ("./" ++ lib_name) = false → e lib_name = true →
      _load_library none system dir e = Except.ok lib_name) := by
  refine ⟨?_, ?_, ?_, ?_, ?_⟩ <;>
    · intros
      simp_all [_load_library, possible_paths, hname, List.find?]

/-- Witness for C5: on Linux with an empty filesystem, resolution fails
with the four documented candidates in order. -/
theorem load_library_search_order_witness :
    _load_library none "Linux" "d" (fun _ => false) =
      Except.error (PyError.libraryNotFoundError
        ["d/../../../target/debug/libxdl_ffi.so",
         "d/../../../target/release/libxdl_ffi.so",
         "./libxdl_ffi.so",
         "libxdl_ffi.so"]) :=
  (load_library_search_order "Linux" "d" "libxdl_ffi.so" (fun _ => false)
      (by decide)).1 (by decide)

/-- C6: when the native init entry returns the null sentinel, construction
fails with contextInitError after the single init call, and the partially
constructed object ends with no handle referenced (its _context attribute
is None), which is the terminal Failed state. -/
theorem init_failure_contextInitError (α : Type) (lib_path : Option String)
    (system : String) (dir : String) (e : String → Bool) (lib : String)
    (ctx : XdlContext)
    (hload : _load_library lib_path system dir e = Except.ok lib) :
    XdlContext.new α lib_path system dir e none =
      (Except.error PyError.contextInitError, [NEvent.init none]) ∧
    (XdlContext._initialize α ctx none).1 =
      ({ ctx with _context := none }, some PyError.contextInitError) := by
  constructor
  · simp [XdlContext.new, hload, XdlContext._initialize]
  · rfl

/-- Witness for C6: an explicit library path, init returning the sentinel. -/
theorem init_failure_contextInitError_witness :
    XdlContext.new Int (some "x") "Linux" "d" (fun _ => false) none =
      (Except.error PyError.contextInitError, [NEvent.init none]) ∧
    (XdlContext._initialize Int ⟨"x", none⟩ none).1 =
      ({ lib := "x", _context := none }, some PyError.contextInitError) :=
  init_failure_contextInitError Int (some "x") "Linux" "d" (fun _ => false)
    "x" ⟨"x", none⟩ rfl

/-- C7: a failed construction leaves no handle referenced (the _context
attribute of the partially constructed object is None), and destroying
such a Failed context is a no-op: the state is unchanged and the native
cleanup entry is not invoked (empty native trace). -/
theorem failed_context_del_noop (α : Type) (ctx : XdlContext) :
    (XdlContext._initialize α ctx none).1.1._context = none ∧
    XdlContext.del α (XdlContext._initialize α ctx none).1.1 =
      ((XdlContext._initialize α ctx none).1.1, []) := by
  exact ⟨rfl, rfl⟩

/-- C8: call_function returns the double produced by the native call entry
exactly as received (the statement is polymorphic in the value type, so no
rounding, clamping, NaN or infinity filtering, or reinterpretation is even
expressible), and performs exactly one native call per invocation. -/
theorem call_function_result_passthrough (α : Type) (ctx : XdlContext)
    (name : String) (args : List α) (res : α) :
    (XdlContext.call_function α ctx name args res).1.2 = res ∧
    (XdlContext.call_function α ctx name args res).2.countP
      (fun ev => ev.isCall) = 1 ∧
    (XdlContext.call_function α ctx name args res).2.length = 1 := by
  exact ⟨rfl, rfl, rfl⟩

/-- C9: each convenience function builds a brand-new context (its trace
starts with its own init call) and performs exactly one native function
call, with the corresponding name and the single argument x; nothing is
shared between invocations, whose traces are exactly this value. -/
theorem convenience_fresh_context_single_call (α : Type) (x : α)
    (system : String) (dir : String) (e : String → Bool) (h : Nat) (res : α)
    (lib : String)
    (hload : _load_library none system dir e = Except.ok lib) :
    sin α x system dir e (some h) res =
      (Except.ok res,
       [NEvent.init (some h),
        NEvent.call (some h) (encodeUtf8 "sin" ++ [0]) (some [x]) 1 res]) ∧
    cos α x system dir e (some h) res =
      (Except.ok res,
       [NEvent.init (some h),
        NEvent.call (some h) (encodeUtf8 "cos" ++ [0]) (some [x]) 1 res]) ∧
    sqrt α x system dir e (some h) res =
      (Except.ok res,
       [NEvent.init (some h),
        NEvent.call (some h) (encodeUtf8 "sqrt" ++ [0]) (some [x]) 1 res]) := by
  refine ⟨?_, ?_, ?_⟩ <;>
    simp [sin, cos, sqrt, XdlContext.new, hload, XdlContext._initialize,
      XdlContext.call_function]

/-- Witness for C9: Linux with every path existing, handle 1, argument 2,
native result 3. -/
theorem convenience_fresh_context_single_call_witness :
    sin Int 2 "Linux" "d" (fun _ => true) (some 1) 3 =
      (Except.ok 3,
       [NEvent.init (some 1),
        NEvent.call (some 1) (encodeUtf8 "sin" ++ [0]) (some [2]) 1 3]) ∧
    cos Int 2 "Linux" "d" (fun _ => true) (some 1) 3 =
      (Except.ok 3,
       [NEvent.init (some 1),
        NEvent.call (some 1) (encodeUtf8 "cos" ++ [0]) (some [2]) 1 3]) ∧
    sqrt Int 2 "Linux" "d" (fun _ => true) (some 1) 3 =
      (Except.ok 3,
       [NEvent.init (some 1),
        NEvent.call (some 1) (encodeUtf8 "sqrt" ++ [0]) (some [2]) 1 3]) :=
  convenience_fresh_context_single_call Int 2 "Linux" "d" (fun _ => true) 1 3
    "d/../../../target/debug/libxdl_ffi.so" (by decide)

/-- C10: call_function leaves the context state unchanged: the stored
handle and the bound library reference are the same after the call as
before, for every name, argument list and native result. -/
theorem call_function_frame (α : Type) (ctx : XdlContext) (name : String)
    (args : List α) (res : α) :
    (XdlContext.call_function α ctx name args res).1.1.lib = ctx.lib ∧
    (XdlContext.call_function α ctx name args res).1.1._context =
      ctx._context := by
  exact ⟨rfl, rfl⟩

end Xdl
